import Mathlib

/-!
Verification of the `libvss-types` value / struct / quality layers.

The C++ sources are embedded shallowly:
* `Value` (a `std::variant` over primitives, arrays of primitives and
  shared struct handles) becomes a nested inductive type; machine integers
  become `Int` / `Nat` payloads (the conversion routines range-check
  explicitly exactly where the source does), `float` / `double` payloads
  become `ℚ`, and `std::shared_ptr<StructValue>` (which may be null)
  becomes `Option StructValue`.
* `std::map` keyed containers become association lists with
  insert-or-replace update, mirroring `operator[]` assignment.
* `std::optional` becomes `Option`; wall-clock time points become `Int`
  millisecond counts with the current instant passed explicitly.
-/

namespace VSS

/-- Mirror of `enum class ValueType` from `include/vss/types/value.hpp`. -/
inductive ValueType where
  | UNSPECIFIED
  | STRING
  | BOOL
  | INT8
  | INT16
  | INT32
  | INT64
  | UINT8
  | UINT16
  | UINT32
  | UINT64
  | FLOAT
  | DOUBLE
  | STRING_ARRAY
  | BOOL_ARRAY
  | INT8_ARRAY
  | INT16_ARRAY
  | INT32_ARRAY
  | INT64_ARRAY
  | UINT8_ARRAY
  | UINT16_ARRAY
  | UINT32_ARRAY
  | UINT64_ARRAY
  | FLOAT_ARRAY
  | DOUBLE_ARRAY
  | STRUCT
  | STRUCT_ARRAY
  deriving DecidableEq, Repr

mutual
/-- Mirror of the `Value` variant from `include/vss/types/value.hpp`.
`unspecified` is `std::monostate`; the struct alternatives carry
`Option StructValue` because `std::shared_ptr` may be null. -/
inductive Value where
  | unspecified : Value
  | vbool : Bool → Value
  | vint8 : Int → Value
  | vint16 : Int → Value
  | vint32 : Int → Value
  | vint64 : Int → Value
  | vuint8 : Nat → Value
  | vuint16 : Nat → Value
  | vuint32 : Nat → Value
  | vuint64 : Nat → Value
  | vfloat : ℚ → Value
  | vdouble : ℚ → Value
  | vstring : String → Value
  | boolArray : List Bool → Value
  | int8Array : List Int → Value
  | int16Array : List Int → Value
  | int32Array : List Int → Value
  | int64Array : List Int → Value
  | uint8Array : List Nat → Value
  | uint16Array : List Nat → Value
  | uint32Array : List Nat → Value
  | uint64Array : List Nat → Value
  | floatArray : List ℚ → Value
  | doubleArray : List ℚ → Value
  | stringArray : List String → Value
  | structVal : Option StructValue → Value
  | structArray : List (Option StructValue) → Value

/-- Mirror of `class StructValue` from `include/vss/types/struct.hpp`:
a type name plus a field-name-keyed map of `Value`s (`std::map` as an
association list with unique keys by construction). -/
inductive StructValue where
  | mk : String → List (String × Value) → StructValue
end

/-- Mirror of `get_value_type` from `src/value.cpp`: tag of the active
alternative, by exhaustive case analysis. -/
def get_value_type : Value → ValueType
  | .unspecified => .UNSPECIFIED
  | .vbool _ => .BOOL
  | .vint8 _ => .INT8
  | .vint16 _ => .INT16
  | .vint32 _ => .INT32
  | .vint64 _ => .INT64
  | .vuint8 _ => .UINT8
  | .vuint16 _ => .UINT16
  | .vuint32 _ => .UINT32
  | .vuint64 _ => .UINT64
  | .vfloat _ => .FLOAT
  | .vdouble _ => .DOUBLE
  | .vstring _ => .STRING
  | .boolArray _ => .BOOL_ARRAY
  | .int8Array _ => .INT8_ARRAY
  | .int16Array _ => .INT16_ARRAY
  | .int32Array _ => .INT32_ARRAY
  | .int64Array _ => .INT64_ARRAY
  | .uint8Array _ => .UINT8_ARRAY
  | .uint16Array _ => .UINT16_ARRAY
  | .uint32Array _ => .UINT32_ARRAY
  | .uint64Array _ => .UINT64_ARRAY
  | .floatArray _ => .FLOAT_ARRAY
  | .doubleArray _ => .DOUBLE_ARRAY
  | .stringArray _ => .STRING_ARRAY
  | .structVal _ => .STRUCT
  | .structArray _ => .STRUCT_ARRAY

/-- Mirror of `is_empty` from `include/vss/types/value.hpp`
(`std::holds_alternative<std::monostate>`). -/
def is_empty : Value → Bool
  | .unspecified => true
  | _ => false

/-- Mirror of `value_type_to_string` from `src/value.cpp`. -/
def value_type_to_string : ValueType → String
  | .UNSPECIFIED => "UNSPECIFIED"
  | .STRING => "STRING"
  | .BOOL => "BOOL"
  | .INT8 => "INT8"
  | .INT16 => "INT16"
  | .INT32 => "INT32"
  | .INT64 => "INT64"
  | .UINT8 => "UINT8"
  | .UINT16 => "UINT16"
  | .UINT32 => "UINT32"
  | .UINT64 => "UINT64"
  | .FLOAT => "FLOAT"
  | .DOUBLE => "DOUBLE"
  | .STRING_ARRAY => "STRING_ARRAY"
  | .BOOL_ARRAY => "BOOL_ARRAY"
  | .INT8_ARRAY => "INT8_ARRAY"
  | .INT16_ARRAY => "INT16_ARRAY"
  | .INT32_ARRAY => "INT32_ARRAY"
  | .INT64_ARRAY => "INT64_ARRAY"
  | .UINT8_ARRAY => "UINT8_ARRAY"
  | .UINT16_ARRAY => "UINT16_ARRAY"
  | .UINT32_ARRAY => "UINT32_ARRAY"
  | .UINT64_ARRAY => "UINT64_ARRAY"
  | .FLOAT_ARRAY => "FLOAT_ARRAY"
  | .DOUBLE_ARRAY => "DOUBLE_ARRAY"
  | .STRUCT => "STRUCT"
  | .STRUCT_ARRAY => "STRUCT_ARRAY"

/-- Mirror of the case fold at the top of `value_type_from_string`
(`src/value.cpp`): `std::transform` with `toupper` over the characters. -/
def strToUpper (s : String) : String :=
  ⟨s.data.map Char.toUpper⟩

/-- Mirror of `value_type_from_string` from `src/value.cpp`: upper-case the
input, then match against the canonical names and aliases in source order. -/
def value_type_from_string (str : String) : Option ValueType :=
  let upper := strToUpper str
  if upper = "STRING" then some .STRING
  else if upper = "BOOL" ∨ upper = "BOOLEAN" then some .BOOL
  else if upper = "INT8" then some .INT8
  else if upper = "INT16" then some .INT16
  else if upper = "INT32" ∨ upper = "INT" then some .INT32
  else if upper = "INT64" ∨ upper = "LONG" then some .INT64
  else if upper = "UINT8" then some .UINT8
  else if upper = "UINT16" then some .UINT16
  else if upper = "UINT32" ∨ upper = "UNSIGNED" then some .UINT32
  else if upper = "UINT64" ∨ upper = "ULONG" then some .UINT64
  else if upper = "FLOAT" then some .FLOAT
  else if upper = "DOUBLE" then some .DOUBLE
  else if upper = "STRING_ARRAY" ∨ upper = "STRING[]" then some .STRING_ARRAY
  else if upper = "BOOL_ARRAY" ∨ upper = "BOOL[]" ∨ upper = "BOOLEAN[]" then some .BOOL_ARRAY
  else if upper = "INT8_ARRAY" ∨ upper = "INT8[]" then some .INT8_ARRAY
  else if upper = "INT16_ARRAY" ∨ upper = "INT16[]" then some .INT16_ARRAY
  else if upper = "INT32_ARRAY" ∨ upper = "INT32[]" ∨ upper = "INT[]" then some .INT32_ARRAY
  else if upper = "INT64_ARRAY" ∨ upper = "INT64[]" ∨ upper = "LONG[]" then some .INT64_ARRAY
  else if upper = "UINT8_ARRAY" ∨ upper = "UINT8[]" then some .UINT8_ARRAY
  else if upper = "UINT16_ARRAY" ∨ upper = "UINT16[]" then some .UINT16_ARRAY
  else if upper = "UINT32_ARRAY" ∨ upper = "UINT32[]" then some .UINT32_ARRAY
  else if upper = "UINT64_ARRAY" ∨ upper = "UINT64[]" then some .UINT64_ARRAY
  else if upper = "FLOAT_ARRAY" ∨ upper = "FLOAT[]" then some .FLOAT_ARRAY
  else if upper = "DOUBLE_ARRAY" ∨ upper = "DOUBLE[]" then some .DOUBLE_ARRAY
  else if upper = "STRUCT" then some .STRUCT
  else if upper = "STRUCT_ARRAY" ∨ upper = "STRUCT[]" then some .STRUCT_ARRAY
  else none

/-- Mirror of `are_types_compatible` from `src/value.cpp`. -/
def are_types_compatible (expected actual : ValueType) : Bool :=
  if expected = actual then true
  else if expected = .UNSPECIFIED ∨ actual = .UNSPECIFIED then true
  else if (expected = .FLOAT ∧ actual = .DOUBLE) ∨
          (expected = .DOUBLE ∧ actual = .FLOAT) then true
  else if (expected = .INT8 ∨ expected = .INT16 ∨
           expected = .INT32 ∨ expected = .INT64) ∧
          (actual = .INT8 ∨ actual = .INT16 ∨
           actual = .INT32 ∨ actual = .INT64) then true
  else if (expected = .UINT8 ∨ expected = .UINT16 ∨
           expected = .UINT32 ∨ expected = .UINT64) ∧
          (actual = .UINT8 ∨ actual = .UINT16 ∨
           actual = .UINT32 ∨ actual = .UINT64) then true
  else if (expected = .FLOAT_ARRAY ∧ actual = .DOUBLE_ARRAY) ∨
          (expected = .DOUBLE_ARRAY ∧ actual = .FLOAT_ARRAY) then true
  else if (expected = .INT8_ARRAY ∨ expected = .INT16_ARRAY ∨
           expected = .INT32_ARRAY ∨ expected = .INT64_ARRAY) ∧
          (actual = .INT8_ARRAY ∨ actual = .INT16_ARRAY ∨
           actual = .INT32_ARRAY ∨ actual = .INT64_ARRAY) then true
  else if (expected = .UINT8_ARRAY ∨ expected = .UINT16_ARRAY ∨
           expected = .UINT32_ARRAY ∨ expected = .UINT64_ARRAY) ∧
          (actual = .UINT8_ARRAY ∨ actual = .UINT16_ARRAY ∨
           actual = .UINT32_ARRAY ∨ actual = .UINT64_ARRAY) then true
  else false

/-- Element loop of the signed-integer array branches of
`convert_value_type` (`src/value.cpp`): widen each element to `int64`,
range-check against `[lo, hi]`, bail out on the first out-of-range
element. -/
def convSignedList (lo hi : Int) : List Int → Option (List Int)
  | [] => some []
  | v :: vs =>
    if v < lo ∨ v > hi then none
    else
      match convSignedList lo hi vs with
      | none => none
      | some r => some (v :: r)

/-- Element loop of the unsigned-integer array branches of
`convert_value_type` (`src/value.cpp`): widen each element to `uint64`
and range-check against the upper bound only. -/
def convUnsignedList (hi : Nat) : List Nat → Option (List Nat)
  | [] => some []
  | v :: vs =>
    if v > hi then none
    else
      match convUnsignedList hi vs with
      | none => none
      | some r => some (v :: r)

/-- Signed-scalar branch of the `std::visit` body of `convert_value_type`
(`src/value.cpp`): the payload already widened to `int64`, switch on the
target tag with the source's range checks. -/
def convertSignedScalar (wide_val : Int) : ValueType → Value
  | .INT8 =>
    if wide_val < -128 ∨ wide_val > 127 then .unspecified
    else .vint8 wide_val
  | .INT16 =>
    if wide_val < -32768 ∨ wide_val > 32767 then .unspecified
    else .vint16 wide_val
  | .INT32 =>
    if wide_val < -2147483648 ∨ wide_val > 2147483647 then .unspecified
    else .vint32 wide_val
  | .INT64 => .vint64 wide_val
  | _ => .unspecified

/-- Unsigned-scalar branch of the `std::visit` body of
`convert_value_type` (`src/value.cpp`). -/
def convertUnsignedScalar (wide_val : Nat) : ValueType → Value
  | .UINT8 =>
    if wide_val > 255 then .unspecified else .vuint8 wide_val
  | .UINT16 =>
    if wide_val > 65535 then .unspecified else .vuint16 wide_val
  | .UINT32 =>
    if wide_val > 4294967295 then .unspecified else .vuint32 wide_val
  | .UINT64 => .vuint64 wide_val
  | _ => .unspecified

/-- Signed-array branch of the `std::visit` body of `convert_value_type`
(`src/value.cpp`): element-wise range-checked copy; any failure makes the
whole conversion `Unspecified`.  The `INT64_ARRAY` target performs no
range check, as in the source. -/
def convertSignedArray (xs : List Int) : ValueType → Value
  | .INT8_ARRAY =>
    match convSignedList (-128) 127 xs with
    | none => .unspecified
    | some r => .int8Array r
  | .INT16_ARRAY =>
    match convSignedList (-32768) 32767 xs with
    | none => .unspecified
    | some r => .int16Array r
  | .INT32_ARRAY =>
    match convSignedList (-2147483648) 2147483647 xs with
    | none => .unspecified
    | some r => .int32Array r
  | .INT64_ARRAY => .int64Array xs
  | _ => .unspecified

/-- Unsigned-array branch of the `std::visit` body of
`convert_value_type` (`src/value.cpp`). -/
def convertUnsignedArray (xs : List Nat) : ValueType → Value
  | .UINT8_ARRAY =>
    match convUnsignedList 255 xs with
    | none => .unspecified
    | some r => .uint8Array r
  | .UINT16_ARRAY =>
    match convUnsignedList 65535 xs with
    | none => .unspecified
    | some r => .uint16Array r
  | .UINT32_ARRAY =>
    match convUnsignedList 4294967295 xs with
    | none => .unspecified
    | some r => .uint32Array r
  | .UINT64_ARRAY => .uint64Array xs
  | _ => .unspecified

/-- The `std::visit` body of `convert_value_type` (`src/value.cpp`),
dispatching on the active alternative of the source value.  Alternatives
with no conversion available (bool, string, their arrays, structs) fall
through to `Unspecified`.  `float`/`double` payloads are modelled as `ℚ`,
so the float↔double casts are payload-preserving. -/
def convert_visit (value : Value) (target_type : ValueType) : Value :=
  match value with
  | .unspecified => .unspecified
  | .vint8 v => convertSignedScalar v target_type
  | .vint16 v => convertSignedScalar v target_type
  | .vint32 v => convertSignedScalar v target_type
  | .vint64 v => convertSignedScalar v target_type
  | .vuint8 v => convertUnsignedScalar v target_type
  | .vuint16 v => convertUnsignedScalar v target_type
  | .vuint32 v => convertUnsignedScalar v target_type
  | .vuint64 v => convertUnsignedScalar v target_type
  | .vfloat v => if target_type = .DOUBLE then .vdouble v else .unspecified
  | .vdouble v => if target_type = .FLOAT then .vfloat v else .unspecified
  | .int8Array xs => convertSignedArray xs target_type
  | .int16Array xs => convertSignedArray xs target_type
  | .int32Array xs => convertSignedArray xs target_type
  | .int64Array xs => convertSignedArray xs target_type
  | .uint8Array xs => convertUnsignedArray xs target_type
  | .uint16Array xs => convertUnsignedArray xs target_type
  | .uint32Array xs => convertUnsignedArray xs target_type
  | .uint64Array xs => convertUnsignedArray xs target_type
  | .floatArray xs =>
    if target_type = .DOUBLE_ARRAY then .doubleArray xs else .unspecified
  | .doubleArray xs =>
    if target_type = .FLOAT_ARRAY then .floatArray xs else .unspecified
  | .vbool _ => .unspecified
  | .vstring _ => .unspecified
  | .boolArray _ => .unspecified
  | .stringArray _ => .unspecified
  | .structVal _ => .unspecified
  | .structArray _ => .unspecified

/-- Mirror of `convert_value_type` from `src/value.cpp`: identity on
matching tags and on the empty value, `Unspecified` on incompatible tags,
otherwise the `std::visit` coercion body. -/
def convert_value_type (value : Value) (target_type : ValueType) : Value :=
  let current_type := get_value_type value
  if current_type = target_type then value
  else if current_type = .UNSPECIFIED then value
  else if ¬ are_types_compatible target_type current_type then .unspecified
  else convert_visit value target_type

/-- Key lookup in a `std::map` modelled as an association list
(first matching key wins; keys are unique by construction). -/
def lookupField {α : Type} : List (String × α) → String → Option α
  | [], _ => none
  | (k, v) :: rest, name => if k = name then some v else lookupField rest name

/-- Mirror of `std::map::operator[]` assignment on an association list: replace the
mapped value of an existing key in place, or append a fresh binding. -/
def mapInsert {α : Type} : List (String × α) → String → α → List (String × α)
  | [], name, v => [(name, v)]
  | (k, v0) :: rest, name, v =>
    if k = name then (k, v) :: rest else (k, v0) :: mapInsert rest name v

/-- Mirror of `struct FieldDefinition` from `include/vss/types/struct.hpp`. -/
structure FieldDefinition where
  name : String
  type : ValueType
  description : String
  default_value : Option Value
  struct_type_name : String

/-- Mirror of `class StructDefinition` from `include/vss/types/struct.hpp`:
type name, description and the field-name-keyed `std::map` of
`FieldDefinition`s. -/
structure StructDefinition where
  type_name : String
  description : String
  fields : List (String × FieldDefinition)

/-- Mirror of `StructDefinition::add_field` (`src/struct.cpp`):
`fields_[field.name] = field` — insert-or-assign, returning the updated
definition for chaining. -/
def StructDefinition.add_field (d : StructDefinition) (field : FieldDefinition) :
    StructDefinition :=
  ⟨d.type_name, d.description, mapInsert d.fields field.name field⟩

/-- Mirror of `StructDefinition::get_field` (`src/struct.cpp`). -/
def StructDefinition.get_field (d : StructDefinition) (field_name : String) :
    Option FieldDefinition :=
  lookupField d.fields field_name

/-- Mirror of `StructDefinition::has_field` (`src/struct.cpp`). -/
def StructDefinition.has_field (d : StructDefinition) (field_name : String) : Bool :=
  (lookupField d.fields field_name).isSome

/-- Type name component of a `StructValue`. -/
def StructValue.type_name : StructValue → String
  | .mk tn _ => tn

/-- Field map component of a `StructValue`. -/
def StructValue.fields : StructValue → List (String × Value)
  | .mk _ fs => fs

/-- Mirror of `StructValue::set_field` (`src/struct.cpp`):
`fields_[name] = value`. -/
def StructValue.set_field : StructValue → String → Value → StructValue
  | .mk tn fs, name, v => .mk tn (mapInsert fs name v)

/-- Mirror of `StructValue::get_field` (`src/struct.cpp`). -/
def StructValue.get_field (sv : StructValue) (field_name : String) : Option Value :=
  lookupField sv.fields field_name

/-- Mirror of `StructValue::has_field` (`src/struct.cpp`). -/
def StructValue.has_field (sv : StructValue) (field_name : String) : Bool :=
  (lookupField sv.fields field_name).isSome

/-- Mirror of `class StructRegistry` from `include/vss/types/struct.hpp`:
the type-name-keyed `std::map` of definitions. -/
structure StructRegistry where
  structs : List (String × StructDefinition)

/-- Mirror of `StructRegistry::register_struct` (`src/struct.cpp`): refuse
an already-registered name (registry unchanged, `false`), otherwise insert
the new binding and answer `true`. -/
def StructRegistry.register_struct (r : StructRegistry) (definition : StructDefinition) :
    StructRegistry × Bool :=
  if (lookupField r.structs definition.type_name).isSome then (r, false)
  else (⟨r.structs ++ [(definition.type_name, definition)]⟩, true)

/-- Mirror of `StructRegistry::get_struct` (`src/struct.cpp`). -/
def StructRegistry.get_struct (r : StructRegistry) (type_name : String) :
    Option StructDefinition :=
  lookupField r.structs type_name

/-- Mirror of `StructRegistry::has_struct` (`src/struct.cpp`). -/
def StructRegistry.has_struct (r : StructRegistry) (type_name : String) : Bool :=
  (lookupField r.structs type_name).isSome

/-- A value found by `lookupField` is a strict subterm of the list. -/
theorem sizeOf_lookupField {α : Type} [SizeOf α] (l : List (String × α)) (n : String)
    (v : α) (h : lookupField l n = some v) : sizeOf v < sizeOf l := by
  induction l with
  | nil => simp [lookupField] at h
  | cons p rest ih =>
    obtain ⟨k, v0⟩ := p
    simp only [lookupField] at h
    split at h
    · rw [Option.some.injEq] at h
      subst h
      simp only [List.cons.sizeOf_spec, Prod.mk.sizeOf_spec]
      omega
    · have := ih h
      simp only [List.cons.sizeOf_spec]
      omega

/-- A field value retrieved from a `StructValue` is a strict subterm of it. -/
theorem sizeOf_get_field (sv : StructValue) (n : String) (v : Value)
    (h : sv.get_field n = some v) : sizeOf v < sizeOf sv := by
  obtain ⟨tn, fs⟩ := sv
  simp only [StructValue.get_field, StructValue.fields] at h
  have := sizeOf_lookupField fs n v h
  simp only [StructValue.mk.sizeOf_spec]
  omega

/-- Strict-mode extra-field sweep of `validate_struct` (`src/struct.cpp`,
lines 124–131): any instance field not declared in the definition is
diagnosed. -/
def checkExtraFields (definition : StructDefinition) (type_name : String) :
    List (String × Value) → Option String
  | [] => none
  | (field_name, _) :: rest =>
    if ¬ definition.has_field field_name then
      some ("Extra field '" ++ field_name ++ "' not defined in struct type '" ++
        type_name ++ "'")
    else checkExtraFields definition type_name rest

mutual
/-- Mirror of `validate_struct` from `src/struct.cpp`: registry lookup of
the instance's type name, the per-declared-field loop, then the
strict-mode extra-field sweep. -/
def validate_struct (value : StructValue) (registry : StructRegistry)
    (strict : Bool) : Option String :=
  match registry.get_struct value.type_name with
  | none => some ("Struct type '" ++ value.type_name ++ "' not found in registry")
  | some definition =>
    match checkFields value registry strict definition.fields with
    | some err => some err
    | none =>
      if strict then checkExtraFields definition value.type_name value.fields
      else none
termination_by (sizeOf value, 1, 0)

/-- Per-declared-field loop of `validate_struct` (`src/struct.cpp`, lines
88–121): missing-without-default check, tag compatibility check, and the
recursive descent into a non-null nested `STRUCT` field. -/
def checkFields (value : StructValue) (registry : StructRegistry) (strict : Bool) :
    List (String × FieldDefinition) → Option String
  | [] => none
  | (field_name, field_def) :: rest =>
    if ¬ value.has_field field_name then
      if field_def.default_value.isNone then
        some ("Required field '" ++ field_name ++ "' missing in struct '" ++
          value.type_name ++ "'")
      else checkFields value registry strict rest
    else
      match h : value.get_field field_name with
      | none => checkFields value registry strict rest
      | some field_value =>
        if ¬ are_types_compatible field_def.type (get_value_type field_value) then
          some ("Field '" ++ field_name ++ "' in struct '" ++ value.type_name ++
            "' has type " ++ value_type_to_string (get_value_type field_value) ++
            " but expected " ++ value_type_to_string field_def.type)
        else if field_def.type = .STRUCT then
          match field_value with
          | .structVal (some sv) =>
            have hlt : sizeOf sv < sizeOf value := by
              have h1 := sizeOf_get_field value field_name (Value.structVal (some sv)) h
              simp only [Value.structVal.sizeOf_spec, Option.some.sizeOf_spec] at h1
              omega
            match validate_struct sv registry strict with
            | some nested_error =>
              some ("Nested struct field '" ++ field_name ++ "': " ++ nested_error)
            | none => checkFields value registry strict rest
          | _ => checkFields value registry strict rest
        else checkFields value registry strict rest
termination_by l => (sizeOf value, 0, sizeOf l)
end

/-- Mirror of `create_default_struct` from `src/struct.cpp`: `none` for an
unregistered name, otherwise an instance holding exactly the declared
fields that carry a default, bound to that default. -/
def create_default_struct (type_name : String) (registry : StructRegistry) :
    Option StructValue :=
  match registry.get_struct type_name with
  | none => none
  | some definition =>
    some (definition.fields.foldl
      (fun value p =>
        match p.2.default_value with
        | some d => value.set_field p.1 d
        | none => value)
      (StructValue.mk type_name []))

/-- Mirror of `enum class SignalQuality` from `include/vss/types/quality.hpp`. -/
inductive SignalQuality where
  | UNKNOWN
  | VALID
  | INVALID
  | NOT_AVAILABLE
  deriving DecidableEq, Repr

/-- Mirror of `QualifiedValue<T>` from `include/vss/types/quality.hpp`.
`std::chrono::system_clock::time_point` is modelled as an `Int` count of
milliseconds; the current instant is passed explicitly to `age`. -/
structure QualifiedValue (T : Type) where
  value : Option T
  quality : SignalQuality
  timestamp : Int

/-- Mirror of `QualifiedValue<T>::age` (`include/vss/types/quality.hpp`,
lines 157–160): `now - timestamp`, with no saturation. -/
def QualifiedValue.age {T : Type} (now : Int) (q : QualifiedValue T) : Int :=
  now - q.timestamp

/-- Mirror of `qualified_value_changed_beyond_threshold`
(`include/vss/types/quality.hpp`, lines 198–231) for an arithmetic
non-bool payload type: the `constexpr` branch is live, so a positive
threshold compares `|double(new) - double(old)|` (doubles modelled as
`ℚ`) inclusively against the threshold. -/
def qualified_value_changed_beyond_threshold_arith
    (old_val new_val : QualifiedValue ℚ) (threshold : ℚ) : Bool :=
  if old_val.quality ≠ new_val.quality then true
  else if ¬ old_val.value.isSome ∧ ¬ new_val.value.isSome then false
  else if old_val.value.isSome ≠ new_val.value.isSome then true
  else
    match old_val.value, new_val.value with
    | some a, some b =>
      if threshold > 0 then |b - a| ≥ threshold else a ≠ b
    | _, _ => false

/-- Mirror of `qualified_value_changed_beyond_threshold`
(`include/vss/types/quality.hpp`, lines 198–231) for a payload type that
is not an arithmetic non-bool scalar: the `constexpr` branch is dead and
both-present payloads always use exact inequality. -/
def qualified_value_changed_beyond_threshold_gen {T : Type} [DecidableEq T]
    (old_val new_val : QualifiedValue T) (threshold : ℚ) : Bool :=
  if old_val.quality ≠ new_val.quality then true
  else if ¬ old_val.value.isSome ∧ ¬ new_val.value.isSome then false
  else if old_val.value.isSome ≠ new_val.value.isSome then true
  else
    match old_val.value, new_val.value with
    | some a, some b =>
      let _ := threshold
      a ≠ b
    | _, _ => false

/-- Mirror of `DynamicQualifiedValue` from `include/vss/types/quality.hpp`. -/
structure DynamicQualifiedValue where
  value : Value
  quality : SignalQuality
  timestamp : Int

/-- Mirror of `DynamicQualifiedValue::age`
(`include/vss/types/quality.hpp`, lines 287–290): `now - timestamp`, with
no saturation. -/
def DynamicQualifiedValue.age (now : Int) (q : DynamicQualifiedValue) : Int :=
  now - q.timestamp

/-- Mirror of `convert_qualified_value_type` from `src/quality.cpp`. -/
def convert_qualified_value_type (qvalue : DynamicQualifiedValue)
    (target_type : ValueType) : DynamicQualifiedValue :=
  if qvalue.quality ≠ SignalQuality.VALID then qvalue
  else if is_empty qvalue.value then qvalue
  else
    let converted := convert_value_type qvalue.value target_type
    if is_empty converted then
      ⟨Value.unspecified, SignalQuality.INVALID, qvalue.timestamp⟩
    else
      ⟨converted, qvalue.quality, qvalue.timestamp⟩

/-- Every value whose tag is `UNSPECIFIED` is the empty alternative. -/
theorem eq_unspecified_of_tag (v : Value) (h : get_value_type v = .UNSPECIFIED) :
    v = .unspecified := by
  cases v <;> simp_all [get_value_type]

/-- Predicate `is_empty` recognises exactly the empty alternative. -/
theorem is_empty_iff (v : Value) : is_empty v = true ↔ v = .unspecified := by
  cases v <;> simp [is_empty]

/-- C9: for every `ValueType` other than `UNSPECIFIED`, parsing the
canonical textual form (the upper-case unqualified tag name emitted by
`value_type_to_string`) round-trips through `value_type_from_string`. -/
theorem C9_value_type_round_trip (t : ValueType) (ht : t ≠ ValueType.UNSPECIFIED) :
    value_type_from_string (value_type_to_string t) = some t := by
  cases t <;> first | exact absurd rfl ht | decide

theorem C9_value_type_round_trip_witness :
    ValueType.FLOAT_ARRAY ≠ ValueType.UNSPECIFIED ∧
    value_type_from_string (value_type_to_string ValueType.FLOAT_ARRAY) =
      some ValueType.FLOAT_ARRAY :=
  ⟨by decide, C9_value_type_round_trip ValueType.FLOAT_ARRAY (by decide)⟩

/-- C6 counterexample: contrary to the claim, the integer aliases are not
applied to the unsigned array forms — `"UNSIGNED[]"` and `"ULONG[]"` are
rejected by `value_type_from_string` rather than parsed to
`UINT32_ARRAY` / `UINT64_ARRAY`. -/
theorem C6_unsigned_array_alias_counterexample :
    value_type_from_string "UNSIGNED[]" = none ∧
    value_type_from_string "UNSIGNED[]" ≠ some ValueType.UINT32_ARRAY ∧
    value_type_from_string "ULONG[]" = none ∧
    value_type_from_string "ULONG[]" ≠ some ValueType.UINT64_ARRAY := by
  refine ⟨by decide, ?_, by decide, ?_⟩ <;> decide

/-- C6 amended: `value_type_from_string` parses case-insensitively and
accepts the bracket array aliases with the scalar integer aliases applied
for the signed and boolean cases — `"INT[]"` parses to `INT32_ARRAY`,
`"LONG[]"` to `INT64_ARRAY`, `"BOOLEAN[]"` to `BOOL_ARRAY` — but the
unsigned aliases are not carried over to arrays: `"UNSIGNED[]"` and
`"ULONG[]"` are not recognised. -/
theorem C6_array_alias_parsing :
    value_type_from_string "INT[]" = some ValueType.INT32_ARRAY ∧
    value_type_from_string "int[]" = some ValueType.INT32_ARRAY ∧
    value_type_from_string "LONG[]" = some ValueType.INT64_ARRAY ∧
    value_type_from_string "long[]" = some ValueType.INT64_ARRAY ∧
    value_type_from_string "BOOLEAN[]" = some ValueType.BOOL_ARRAY ∧
    value_type_from_string "Boolean[]" = some ValueType.BOOL_ARRAY ∧
    value_type_from_string "UNSIGNED[]" = none ∧
    value_type_from_string "unsigned[]" = none ∧
    value_type_from_string "ULONG[]" = none ∧
    value_type_from_string "ulong[]" = none := by
  decide

/-- C8 counterexample: `age` is `now - timestamp` with no saturation, so a
stored timestamp in the future of `now` yields a negative age (here
`now = 40` ms against `timestamp = 100` ms gives `-60`), for both the
typed and the dynamic wrapper. -/
theorem C8_age_not_saturated_counterexample :
    QualifiedValue.age (T := Unit) 40 ⟨none, SignalQuality.UNKNOWN, 100⟩ = -60 ∧
    QualifiedValue.age (T := Unit) 40 ⟨none, SignalQuality.UNKNOWN, 100⟩ < 0 ∧
    DynamicQualifiedValue.age 40 ⟨Value.unspecified, SignalQuality.UNKNOWN, 100⟩ = -60 ∧
    DynamicQualifiedValue.age 40 ⟨Value.unspecified, SignalQuality.UNKNOWN, 100⟩ < 0 := by
  refine ⟨rfl, by decide, rfl, by decide⟩

/-- C8 amended: for every qualified value and every reading of the clock,
`age` returns `now` minus the stored timestamp with **no** saturation: it
is negative exactly when the stored timestamp lies in the future of
`now()` (explicit-timestamp constructor or clock adjustment). -/
theorem C8_age_unsaturated {T : Type} (now : Int) (q : QualifiedValue T)
    (qd : DynamicQualifiedValue) :
    QualifiedValue.age now q = now - q.timestamp ∧
    DynamicQualifiedValue.age now qd = now - qd.timestamp ∧
    (now < q.timestamp → QualifiedValue.age now q < 0) ∧
    (now < qd.timestamp → DynamicQualifiedValue.age now qd < 0) := by
  refine ⟨rfl, rfl, ?_, ?_⟩ <;>
    · intro h
      simp only [QualifiedValue.age, DynamicQualifiedValue.age]
      omega

theorem C8_age_unsaturated_witness :
    QualifiedValue.age (T := Unit) 40 ⟨none, SignalQuality.UNKNOWN, 100⟩ < 0 :=
  (C8_age_unsaturated 40 ⟨none, SignalQuality.UNKNOWN, 100⟩
    ⟨Value.unspecified, SignalQuality.UNKNOWN, 100⟩).2.2.1 (by decide)

/-- C4: `convert_qualified_value_type` on a `VALID`, non-empty qualified
value emits `⟨Unspecified, INVALID, same timestamp⟩` when the value-layer
conversion fails, and the converted value with the original quality and
timestamp when it succeeds; a qualified value whose quality is not
`VALID` is returned unchanged. -/
theorem C4_convert_qualified_value_type (q : DynamicQualifiedValue) (t : ValueType) :
    (q.quality = SignalQuality.VALID → is_empty q.value = false →
      ((convert_value_type q.value t = Value.unspecified →
          convert_qualified_value_type q t =
            ⟨Value.unspecified, SignalQuality.INVALID, q.timestamp⟩) ∧
       (convert_value_type q.value t ≠ Value.unspecified →
          convert_qualified_value_type q t =
            ⟨convert_value_type q.value t, q.quality, q.timestamp⟩))) ∧
    (q.quality ≠ SignalQuality.VALID → convert_qualified_value_type q t = q) := by
  constructor
  · intro hq hne
    constructor
    · intro hconv
      simp [convert_qualified_value_type, hq, hne, hconv]
      rfl
    · intro hconv
      have : is_empty (convert_value_type q.value t) = false := by
        rcases h : is_empty (convert_value_type q.value t) with _ | _
        · rfl
        · exact absurd ((is_empty_iff _).mp h) hconv
      simp [convert_qualified_value_type, hq, hne, this]
  · intro hq
    simp [convert_qualified_value_type, hq]

theorem C4_convert_qualified_value_type_witness :
    convert_qualified_value_type ⟨Value.vint64 300, SignalQuality.VALID, 5⟩
        ValueType.INT8 =
      ⟨Value.unspecified, SignalQuality.INVALID, 5⟩ :=
  ((C4_convert_qualified_value_type ⟨Value.vint64 300, SignalQuality.VALID, 5⟩
      ValueType.INT8).1 rfl rfl).1 rfl

/-- Insert-or-assign followed by lookup of the same key finds the new
value. -/
theorem lookupField_mapInsert_self {α : Type} (l : List (String × α)) (k : String)
    (v : α) : lookupField (mapInsert l k v) k = some v := by
  induction l with
  | nil => simp [mapInsert, lookupField]
  | cons p rest ih =>
    obtain ⟨k0, v0⟩ := p
    by_cases hk : k0 = k
    · simp [mapInsert, hk, lookupField]
    · simp [mapInsert, hk, lookupField, ih]

/-- Insert-or-assign leaves every other key's binding unchanged. -/
theorem lookupField_mapInsert_other {α : Type} (l : List (String × α)) (k n : String)
    (v : α) (h : n ≠ k) : lookupField (mapInsert l k v) n = lookupField l n := by
  induction l with
  | nil => simp [mapInsert, lookupField, Ne.symm h]
  | cons p rest ih =>
    obtain ⟨k0, v0⟩ := p
    by_cases hk : k0 = k
    · subst hk
      simp [mapInsert, lookupField, Ne.symm h]
    · simp [mapInsert, hk, lookupField, ih]

/-- A key is absent exactly when lookup fails. -/
theorem lookupField_eq_none_iff {α : Type} (l : List (String × α)) (n : String) :
    lookupField l n = none ↔ n ∉ l.map Prod.fst := by
  induction l with
  | nil => simp [lookupField]
  | cons p rest ih =>
    obtain ⟨k0, v0⟩ := p
    by_cases hk : k0 = n
    · simp [lookupField, hk]
    · simp [lookupField, hk, ih, Ne.symm hk]

/-- The key set after insert-or-assign: unchanged when the key was bound,
extended by the key otherwise. -/
theorem mapInsert_keys {α : Type} (l : List (String × α)) (k : String) (v : α) :
    (mapInsert l k v).map Prod.fst =
      if (lookupField l k).isSome then l.map Prod.fst
      else l.map Prod.fst ++ [k] := by
  induction l with
  | nil => simp [mapInsert, lookupField]
  | cons p rest ih =>
    obtain ⟨k0, v0⟩ := p
    by_cases hk : k0 = k
    · simp [mapInsert, hk, lookupField]
    · simp [mapInsert, hk, lookupField, ih]
      split <;> simp

/-- Insert-or-assign preserves key uniqueness. -/
theorem mapInsert_keys_nodup {α : Type} (l : List (String × α)) (k : String) (v : α)
    (h : (l.map Prod.fst).Nodup) : ((mapInsert l k v).map Prod.fst).Nodup := by
  rw [mapInsert_keys]
  split
  · exact h
  · rename_i hnone
    have hk : k ∉ l.map Prod.fst := by
      rw [← lookupField_eq_none_iff]
      cases hcase : lookupField l k
      · rfl
      · rw [hcase] at hnone
        simp at hnone
    refine h.append (List.nodup_singleton k) ?_
    intro a ha hmem
    simp at hmem
    subst hmem
    exact hk ha

/-- C10: `StructDefinition::add_field` with an already-present field name
silently replaces the prior definition (last write wins) and leaves every
other binding unchanged; it returns the updated definition (same type
name and description) for chaining and never rejects a duplicate, so a
definition built by `add_field` keeps its field names unique — unlike
`StructRegistry::register_struct`, which refuses an already-registered
type name and leaves the registry unchanged. -/
theorem C10_add_field_last_write_wins (d : StructDefinition) (f : FieldDefinition) :
    (d.add_field f).get_field f.name = some f ∧
    (d.add_field f).has_field f.name = true ∧
    (∀ n, n ≠ f.name → (d.add_field f).get_field n = d.get_field n) ∧
    (d.add_field f).type_name = d.type_name ∧
    (d.add_field f).description = d.description ∧
    ((d.fields.map Prod.fst).Nodup → (((d.add_field f).fields.map Prod.fst)).Nodup) ∧
    (∀ (r : StructRegistry) (d2 : StructDefinition),
      r.has_struct d2.type_name = true → r.register_struct d2 = (r, false)) := by
  refine ⟨?_, ?_, ?_, rfl, rfl, ?_, ?_⟩
  · exact lookupField_mapInsert_self d.fields f.name f
  · simp [StructDefinition.has_field, StructDefinition.add_field,
      lookupField_mapInsert_self]
  · intro n hn
    exact lookupField_mapInsert_other d.fields f.name n f hn
  · intro h
    exact mapInsert_keys_nodup d.fields f.name f h
  · intro r d2 h
    simp only [StructRegistry.has_struct] at h
    simp [StructRegistry.register_struct, h]

theorem C10_add_field_last_write_wins_witness :
    ((StructDefinition.mk "S" ""
        [("a", FieldDefinition.mk "a" ValueType.INT32 "" none "")]).add_field
      (FieldDefinition.mk "a" ValueType.STRING "" none "")).get_field "a" =
        some (FieldDefinition.mk "a" ValueType.STRING "" none "") ∧
    ((((StructDefinition.mk "S" ""
        [("a", FieldDefinition.mk "a" ValueType.INT32 "" none "")]).add_field
      (FieldDefinition.mk "a" ValueType.STRING "" none "")).fields.map
        Prod.fst)).Nodup := by
  have h := C10_add_field_last_write_wins
    (StructDefinition.mk "S" "" [("a", FieldDefinition.mk "a" ValueType.INT32 "" none "")])
    (FieldDefinition.mk "a" ValueType.STRING "" none "")
  exact ⟨h.1, h.2.2.2.2.2.1 (by simp)⟩

/-- C7: for every pair of `QualifiedValue<T>` and every threshold — a
quality difference always reports a change; both values absent (same
quality) reports no change; exactly one absent reports a change; when
both are present, `T` is an arithmetic non-bool scalar and the threshold
is positive, a change is reported iff the absolute payload difference is
`≥` the threshold (boundary inclusive); otherwise (non-arithmetic `T` or
threshold `≤ 0`) a change is reported iff the payloads are unequal. -/
theorem C7_qualified_threshold_cases :
    (∀ (T : Type) (inst : DecidableEq T) (o n : QualifiedValue T) (th : ℚ),
      (o.quality ≠ n.quality →
        qualified_value_changed_beyond_threshold_gen o n th = true) ∧
      (o.quality = n.quality → o.value = none → n.value = none →
        qualified_value_changed_beyond_threshold_gen o n th = false) ∧
      (o.value.isSome ≠ n.value.isSome →
        qualified_value_changed_beyond_threshold_gen o n th = true) ∧
      (∀ a b, o.quality = n.quality → o.value = some a → n.value = some b →
        (qualified_value_changed_beyond_threshold_gen o n th = true ↔ a ≠ b))) ∧
    (∀ (o n : QualifiedValue ℚ) (th : ℚ),
      (o.quality ≠ n.quality →
        qualified_value_changed_beyond_threshold_arith o n th = true) ∧
      (o.quality = n.quality → o.value = none → n.value = none →
        qualified_value_changed_beyond_threshold_arith o n th = false) ∧
      (o.value.isSome ≠ n.value.isSome →
        qualified_value_changed_beyond_threshold_arith o n th = true) ∧
      (∀ a b, o.quality = n.quality → o.value = some a → n.value = some b →
        (th > 0 →
          (qualified_value_changed_beyond_threshold_arith o n th = true ↔
            |b - a| ≥ th)) ∧
        (¬ th > 0 →
          (qualified_value_changed_beyond_threshold_arith o n th = true ↔
            a ≠ b)))) := by
  constructor
  · intro T inst o n th
    refine ⟨?_, ?_, ?_, ?_⟩
    · intro hq
      simp [qualified_value_changed_beyond_threshold_gen, hq]
    · intro hq ho hn
      simp [qualified_value_changed_beyond_threshold_gen, hq, ho, hn]
    · intro hv
      have hq : o.quality = n.quality ∨ o.quality ≠ n.quality := em _
      rcases hq with hq | hq
      · simp [qualified_value_changed_beyond_threshold_gen, hq, hv]
        cases ho : o.value with
        | none =>
          cases hn : n.value with
          | none => rw [ho, hn] at hv; simp at hv
          | some b => right; simp [hn]
        | some a => left; simp [ho]
      · simp [qualified_value_changed_beyond_threshold_gen, hq]
    · intro a b hq ho hn
      simp [qualified_value_changed_beyond_threshold_gen, hq, ho, hn]
  · intro o n th
    refine ⟨?_, ?_, ?_, ?_⟩
    · intro hq
      simp [qualified_value_changed_beyond_threshold_arith, hq]
    · intro hq ho hn
      simp [qualified_value_changed_beyond_threshold_arith, hq, ho, hn]
    · intro hv
      have hq : o.quality = n.quality ∨ o.quality ≠ n.quality := em _
      rcases hq with hq | hq
      · simp [qualified_value_changed_beyond_threshold_arith, hq, hv]
        cases ho : o.value with
        | none =>
          cases hn : n.value with
          | none => rw [ho, hn] at hv; simp at hv
          | some b => right; simp [hn]
        | some a => left; simp [ho]
      · simp [qualified_value_changed_beyond_threshold_arith, hq]
    · intro a b hq ho hn
      constructor
      · intro hth
        simp [qualified_value_changed_beyond_threshold_arith, hq, ho, hn, hth]
      · intro hth
        simp [qualified_value_changed_beyond_threshold_arith, hq, ho, hn, hth]

theorem C7_qualified_threshold_cases_witness :
    qualified_value_changed_beyond_threshold_arith
      ⟨some 100, SignalQuality.VALID, 0⟩ ⟨some 101, SignalQuality.VALID, 0⟩ 1 = true ∧
    qualified_value_changed_beyond_threshold_arith
      ⟨some 100, SignalQuality.VALID, 0⟩ ⟨some 101, SignalQuality.VALID, 0⟩ 2 = false ∧
    qualified_value_changed_beyond_threshold_gen (T := String)
      ⟨some "x", SignalQuality.VALID, 0⟩ ⟨some "x", SignalQuality.INVALID, 0⟩ 5 = true := by
  refine ⟨?_, ?_, ?_⟩
  · exact (((C7_qualified_threshold_cases.2 ⟨some 100, SignalQuality.VALID, 0⟩
      ⟨some 101, SignalQuality.VALID, 0⟩ 1).2.2.2 100 101 rfl rfl rfl).1
      (by norm_num)).mpr (by norm_num)
  · have h := (((C7_qualified_threshold_cases.2 ⟨some 100, SignalQuality.VALID, 0⟩
      ⟨some 101, SignalQuality.VALID, 0⟩ 2).2.2.2 100 101 rfl rfl rfl).1 (by norm_num))
    rcases hb : qualified_value_changed_beyond_threshold_arith
      ⟨some 100, SignalQuality.VALID, 0⟩ ⟨some 101, SignalQuality.VALID, 0⟩ 2 with _ | _
    · rfl
    · rw [hb] at h
      have := h.mp rfl
      norm_num at this
  · exact (C7_qualified_threshold_cases.1 String inferInstance
      ⟨some "x", SignalQuality.VALID, 0⟩ ⟨some "x", SignalQuality.INVALID, 0⟩ 5).1
      (by decide)

/-- The signed-scalar coercion branch produces the target tag or fails. -/
theorem convertSignedScalar_tag (v : Int) (t : ValueType) :
    get_value_type (convertSignedScalar v t) = t ∨
    convertSignedScalar v t = .unspecified := by
  cases t <;> simp only [convertSignedScalar] <;>
    first
      | (right; trivial)
      | (left; rfl)
      | (split
         · right; trivial
         · left; rfl)

/-- The unsigned-scalar coercion branch produces the target tag or fails. -/
theorem convertUnsignedScalar_tag (v : Nat) (t : ValueType) :
    get_value_type (convertUnsignedScalar v t) = t ∨
    convertUnsignedScalar v t = .unspecified := by
  cases t <;> simp only [convertUnsignedScalar] <;>
    first
      | (right; trivial)
      | (left; rfl)
      | (split
         · right; trivial
         · left; rfl)

/-- The signed-array coercion branch produces the target tag or fails. -/
theorem convertSignedArray_tag (xs : List Int) (t : ValueType) :
    get_value_type (convertSignedArray xs t) = t ∨
    convertSignedArray xs t = .unspecified := by
  cases t <;> simp only [convertSignedArray] <;>
    first
      | (right; trivial)
      | (left; rfl)
      | (split
         · right; trivial
         · left; rfl)

/-- The unsigned-array coercion branch produces the target tag or fails. -/
theorem convertUnsignedArray_tag (xs : List Nat) (t : ValueType) :
    get_value_type (convertUnsignedArray xs t) = t ∨
    convertUnsignedArray xs t = .unspecified := by
  cases t <;> simp only [convertUnsignedArray] <;>
    first
      | (right; trivial)
      | (left; rfl)
      | (split
         · right; trivial
         · left; rfl)

/-- The full `std::visit` coercion body produces the target tag or fails. -/
theorem convert_visit_tag (v : Value) (t : ValueType) :
    get_value_type (convert_visit v t) = t ∨ convert_visit v t = .unspecified := by
  cases v <;> simp only [convert_visit] <;>
    first
      | (right; trivial)
      | exact convertSignedScalar_tag _ t
      | exact convertUnsignedScalar_tag _ t
      | exact convertSignedArray_tag _ t
      | exact convertUnsignedArray_tag _ t
      | (split
         · left; simp_all [get_value_type]
         · right; trivial)

/-- C3: for every value and target type, `convert_value_type` either
returns a value whose tag is the target type or returns the empty
`Unspecified` alternative; no third tag is ever produced, and failure is
by returning the empty alternative, never by raising. -/
theorem C3_convert_value_type_tag_safety (v : Value) (t : ValueType) :
    get_value_type (convert_value_type v t) = t ∨
    convert_value_type v t = Value.unspecified := by
  simp only [convert_value_type]
  split_ifs with h1 h2 h3
  · left
    exact h1
  · right
    exact eq_unspecified_of_tag v h2
  · exact convert_visit_tag v t
  · right
    rfl

/-- The signed element loop succeeds (with the same elements) exactly when
every element is within `[lo, hi]`, and fails on a single violation. -/
theorem convSignedList_eq (lo hi : Int) (xs : List Int) :
    convSignedList lo hi xs =
      if ∀ x ∈ xs, lo ≤ x ∧ x ≤ hi then some xs else none := by
  induction xs with
  | nil => simp [convSignedList]
  | cons a l ih =>
    simp only [convSignedList, ih]
    by_cases ha : a < lo ∨ a > hi
    · rw [if_pos ha, if_neg]
      intro hall
      have := hall a (by simp)
      omega
    · rw [if_neg ha]
      push_neg at ha
      by_cases hl : ∀ x ∈ l, lo ≤ x ∧ x ≤ hi
      · rw [if_pos hl, if_pos]
        intro x hx
        rcases List.mem_cons.mp hx with h | h
        · subst h
          exact ⟨ha.1, ha.2⟩
        · exact hl x h
      · rw [if_neg hl, if_neg]
        intro hall
        exact hl fun x hx => hall x (List.mem_cons_of_mem a hx)

/-- The unsigned element loop succeeds (with the same elements) exactly
when every element is `≤ hi`, and fails on a single violation. -/
theorem convUnsignedList_eq (hi : Nat) (xs : List Nat) :
    convUnsignedList hi xs =
      if ∀ x ∈ xs, x ≤ hi then some xs else none := by
  induction xs with
  | nil => simp [convUnsignedList]
  | cons a l ih =>
    simp only [convUnsignedList, ih]
    by_cases ha : a > hi
    · rw [if_pos ha, if_neg]
      intro hall
      have := hall a (by simp)
      omega
    · rw [if_neg ha]
      by_cases hl : ∀ x ∈ l, x ≤ hi
      · rw [if_pos hl, if_pos]
        intro x hx
        rcases List.mem_cons.mp hx with h | h
        · subst h
          omega
        · exact hl x h
      · rw [if_neg hl, if_neg]
        intro hall
        exact hl fun x hx => hall x (List.mem_cons_of_mem a hx)

/-- C5: signed-integer narrowing in `convert_value_type` range-checks
against the target's bounds and yields `Unspecified` when out of range —
in particular `Int64(300) → Int8` is `Unspecified` and
`Int64(100) → Int8` is `Int8(100)` — and for every signed and unsigned
integer array conversion the scalar rule is applied element-wise: the
result keeps the elements when all are in the target's range, and a
single out-of-range element makes the entire result `Unspecified`
(the 64-bit targets perform no range check). -/
theorem C5_integer_narrowing_range_checks :
    convert_value_type (Value.vint64 300) ValueType.INT8 = Value.unspecified ∧
    convert_value_type (Value.vint64 100) ValueType.INT8 = Value.vint8 100 ∧
    (∀ n : Int, convert_value_type (Value.vint64 n) ValueType.INT8 =
      if -128 ≤ n ∧ n ≤ 127 then Value.vint8 n else Value.unspecified) ∧
    (∀ n : Int, convert_value_type (Value.vint64 n) ValueType.INT16 =
      if -32768 ≤ n ∧ n ≤ 32767 then Value.vint16 n else Value.unspecified) ∧
    (∀ n : Int, convert_value_type (Value.vint64 n) ValueType.INT32 =
      if -2147483648 ≤ n ∧ n ≤ 2147483647 then Value.vint32 n
      else Value.unspecified) ∧
    (∀ n : Nat, convert_value_type (Value.vuint64 n) ValueType.UINT8 =
      if n ≤ 255 then Value.vuint8 n else Value.unspecified) ∧
    (∀ xs, convert_value_type (Value.int8Array xs) ValueType.INT16_ARRAY =
      if ∀ x ∈ xs, -32768 ≤ x ∧ x ≤ 32767 then Value.int16Array xs
      else Value.unspecified) ∧
    (∀ xs, convert_value_type (Value.int8Array xs) ValueType.INT32_ARRAY =
      if ∀ x ∈ xs, -2147483648 ≤ x ∧ x ≤ 2147483647 then Value.int32Array xs
      else Value.unspecified) ∧
    (∀ xs, convert_value_type (Value.int8Array xs) ValueType.INT64_ARRAY =
      Value.int64Array xs) ∧
    (∀ xs, convert_value_type (Value.int16Array xs) ValueType.INT8_ARRAY =
      if ∀ x ∈ xs, -128 ≤ x ∧ x ≤ 127 then Value.int8Array xs
      else Value.unspecified) ∧
    (∀ xs, convert_value_type (Value.int16Array xs) ValueType.INT32_ARRAY =
      if ∀ x ∈ xs, -2147483648 ≤ x ∧ x ≤ 2147483647 then Value.int32Array xs
      else Value.unspecified) ∧
    (∀ xs, convert_value_type (Value.int16Array xs) ValueType.INT64_ARRAY =
      Value.int64Array xs) ∧
    (∀ xs, convert_value_type (Value.int32Array xs) ValueType.INT8_ARRAY =
      if ∀ x ∈ xs, -128 ≤ x ∧ x ≤ 127 then Value.int8Array xs
      else Value.unspecified) ∧
    (∀ xs, convert_value_type (Value.int32Array xs) ValueType.INT16_ARRAY =
      if ∀ x ∈ xs, -32768 ≤ x ∧ x ≤ 32767 then Value.int16Array xs
      else Value.unspecified) ∧
    (∀ xs, convert_value_type (Value.int32Array xs) ValueType.INT64_ARRAY =
      Value.int64Array xs) ∧
    (∀ xs, convert_value_type (Value.int64Array xs) ValueType.INT8_ARRAY =
      if ∀ x ∈ xs, -128 ≤ x ∧ x ≤ 127 then Value.int8Array xs
      else Value.unspecified) ∧
    (∀ xs, convert_value_type (Value.int64Array xs) ValueType.INT16_ARRAY =
      if ∀ x ∈ xs, -32768 ≤ x ∧ x ≤ 32767 then Value.int16Array xs
      else Value.unspecified) ∧
    (∀ xs, convert_value_type (Value.int64Array xs) ValueType.INT32_ARRAY =
      if ∀ x ∈ xs, -2147483648 ≤ x ∧ x ≤ 2147483647 then Value.int32Array xs
      else Value.unspecified) ∧
    (∀ xs, convert_value_type (Value.uint8Array xs) ValueType.UINT16_ARRAY =
      if ∀ x ∈ xs, x ≤ 65535 then Value.uint16Array xs else Value.unspecified) ∧
    (∀ xs, convert_value_type (Value.uint8Array xs) ValueType.UINT32_ARRAY =
      if ∀ x ∈ xs, x ≤ 4294967295 then Value.uint32Array xs
      else Value.unspecified) ∧
    (∀ xs, convert_value_type (Value.uint8Array xs) ValueType.UINT64_ARRAY =
      Value.uint64Array xs) ∧
    (∀ xs, convert_value_type (Value.uint16Array xs) ValueType.UINT8_ARRAY =
      if ∀ x ∈ xs, x ≤ 255 then Value.uint8Array xs else Value.unspecified) ∧
    (∀ xs, convert_value_type (Value.uint16Array xs) ValueType.UINT32_ARRAY =
      if ∀ x ∈ xs, x ≤ 4294967295 then Value.uint32Array xs
      else Value.unspecified) ∧
    (∀ xs, convert_value_type (Value.uint16Array xs) ValueType.UINT64_ARRAY =
      Value.uint64Array xs) ∧
    (∀ xs, convert_value_type (Value.uint32Array xs) ValueType.UINT8_ARRAY =
      if ∀ x ∈ xs, x ≤ 255 then Value.uint8Array xs else Value.unspecified) ∧
    (∀ xs, convert_value_type (Value.uint32Array xs) ValueType.UINT16_ARRAY =
      if ∀ x ∈ xs, x ≤ 65535 then Value.uint16Array xs else Value.unspecified) ∧
    (∀ xs, convert_value_type (Value.uint32Array xs) ValueType.UINT64_ARRAY =
      Value.uint64Array xs) ∧
    (∀ xs, convert_value_type (Value.uint64Array xs) ValueType.UINT8_ARRAY =
      if ∀ x ∈ xs, x ≤ 255 then Value.uint8Array xs else Value.unspecified) ∧
    (∀ xs, convert_value_type (Value.uint64Array xs) ValueType.UINT16_ARRAY =
      if ∀ x ∈ xs, x ≤ 65535 then Value.uint16Array xs else Value.unspecified) ∧
    (∀ xs, convert_value_type (Value.uint64Array xs) ValueType.UINT32_ARRAY =
      if ∀ x ∈ xs, x ≤ 4294967295 then Value.uint32Array xs
      else Value.unspecified) := by
  refine ⟨rfl, rfl, ?_, ?_, ?_, ?_, ?_, ?_, ?_, ?_, ?_, ?_, ?_, ?_, ?_, ?_, ?_,
    ?_, ?_, ?_, ?_, ?_, ?_, ?_, ?_, ?_, ?_, ?_, ?_, ?_⟩ <;>
    intro x <;>
    simp only [convert_value_type, get_value_type, are_types_compatible,
      convert_visit, convertSignedScalar, convertUnsignedScalar,
      convertSignedArray, convertUnsignedArray, convSignedList_eq,
      convUnsignedList_eq] <;>
    norm_num <;>
    split_ifs <;>
    first
      | rfl
      | omega
      | simp_all

/-- A bound key answers `isSome` lookups positively. -/
theorem lookupField_isSome_of_mem {α : Type} (l : List (String × α)) (n : String)
    (h : n ∈ l.map Prod.fst) : (lookupField l n).isSome = true := by
  induction l with
  | nil => simp at h
  | cons p rest ih =>
    obtain ⟨k, v⟩ := p
    by_cases hk : k = n
    · simp [lookupField, hk]
    · simp only [List.map_cons, List.mem_cons] at h
      rcases h with h | h
      · exact absurd h.symm hk
      · simp [lookupField, hk, ih h]

/-- Inserting an unbound key appends the binding at the end. -/
theorem mapInsert_of_not_mem {α : Type} (l : List (String × α)) (k : String) (v : α)
    (h : lookupField l k = none) : mapInsert l k v = l ++ [(k, v)] := by
  induction l with
  | nil => simp [mapInsert]
  | cons p rest ih =>
    obtain ⟨k0, v0⟩ := p
    simp only [lookupField] at h
    by_cases hk : k0 = k
    · rw [if_pos hk] at h
      simp at h
    · rw [if_neg hk] at h
      simp [mapInsert, hk, ih h]

/-- A present field implies `has_field`. -/
theorem has_field_of_get_field (sv : StructValue) (n : String) (fv : Value)
    (h : sv.get_field n = some fv) : sv.has_field n = true := by
  simp [StructValue.has_field, StructValue.get_field] at h ⊢
  simp [h]

/-- An absent field (by `has_field`) yields no `get_field` value. -/
theorem get_field_eq_none_of_not_has (sv : StructValue) (n : String)
    (h : sv.has_field n = false) : sv.get_field n = none := by
  simp only [StructValue.has_field] at h
  cases hc : lookupField sv.fields n with
  | none => simp [StructValue.get_field, hc]
  | some v =>
    rw [hc] at h
    simp at h

/-- The default-materialization fold of `create_default_struct` acts only
on the field map, leaving the type name in place. -/
theorem create_fold_shape (L : List (String × FieldDefinition)) (tn : String)
    (fs : List (String × Value)) :
    L.foldl
      (fun value p =>
        match p.2.default_value with
        | some d => value.set_field p.1 d
        | none => value)
      (StructValue.mk tn fs) =
    StructValue.mk tn
      (L.foldl
        (fun a p =>
          match p.2.default_value with
          | some d => mapInsert a p.1 d
          | none => a)
        fs) := by
  induction L generalizing fs with
  | nil => rfl
  | cons q rest ih =>
    obtain ⟨fn, fd⟩ := q
    simp only [List.foldl_cons]
    cases hdv : fd.default_value with
    | none => exact ih fs
    | some dv => exact ih (mapInsert fs fn dv)

/-- Under unique keys all disjoint from the accumulator, the
default-materialization fold appends exactly the defaulted bindings. -/
theorem applyDefaults_eq (L : List (String × FieldDefinition))
    (acc : List (String × Value))
    (hdisj : ∀ k ∈ L.map Prod.fst, lookupField acc k = none)
    (hnodup : (L.map Prod.fst).Nodup) :
    L.foldl
      (fun a p =>
        match p.2.default_value with
        | some d => mapInsert a p.1 d
        | none => a)
      acc =
    acc ++ L.filterMap (fun p => Option.map (fun d => (p.1, d)) p.2.default_value) := by
  induction L generalizing acc with
  | nil => simp
  | cons q rest ih =>
    obtain ⟨fn, fd⟩ := q
    simp only [List.map_cons, List.nodup_cons] at hnodup
    cases hdv : fd.default_value with
    | none =>
      simp only [List.foldl_cons, hdv]
      rw [ih acc (fun k hk => hdisj k (by simp [hk])) hnodup.2]
      simp [hdv]
    | some dv =>
      simp only [List.foldl_cons, hdv]
      have hacc : lookupField acc fn = none := hdisj fn (by simp)
      rw [mapInsert_of_not_mem acc fn dv hacc] at *
      have hdisj2 : ∀ k ∈ rest.map Prod.fst,
          lookupField (acc ++ [(fn, dv)]) k = none := by
        intro k hk
        have hkfn : k ≠ fn := by
          intro hEq
          exact hnodup.1 (hEq ▸ hk)
        rw [← mapInsert_of_not_mem acc fn dv hacc]
        rw [lookupField_mapInsert_other acc fn k dv hkfn]
        exact hdisj k (by simp [hk])
      rw [ih (acc ++ [(fn, dv)]) hdisj2 hnodup.2]
      simp [hdv]

/-- In the defaulted-bindings list of a unique-keyed schema, each
defaulted field is bound to its own default. -/
theorem lookup_filterMap_defaults (L : List (String × FieldDefinition))
    (hnodup : (L.map Prod.fst).Nodup) (fn : String) (fd : FieldDefinition)
    (dv : Value) (hmem : (fn, fd) ∈ L) (hdv : fd.default_value = some dv) :
    lookupField
      (L.filterMap (fun p => Option.map (fun d => (p.1, d)) p.2.default_value))
      fn = some dv := by
  induction L with
  | nil => simp at hmem
  | cons q rest ih =>
    obtain ⟨k0, fd0⟩ := q
    simp only [List.map_cons, List.nodup_cons] at hnodup
    rcases List.mem_cons.mp hmem with h | h
    · injection h with h1 h2
      subst h1
      subst h2
      simp [hdv, lookupField]
    · have hk0 : k0 ≠ fn := by
        intro hEq
        subst hEq
        exact hnodup.1 (by exact List.mem_map_of_mem Prod.fst h)
      cases hdv0 : fd0.default_value with
      | none =>
        rw [List.filterMap_cons]
        simp only [hdv0, Option.map_none]
        exact ih hnodup.2 h
      | some dv0 =>
        simp only [List.filterMap_cons, hdv0, Option.map_some]
        simp [lookupField, hk0]
        exact ih hnodup.2 h

/-- Every binding produced by default materialization names a declared
field. -/
theorem mem_filterMap_defaults (L : List (String × FieldDefinition))
    (q : String × Value)
    (h : q ∈ L.filterMap (fun p => Option.map (fun d => (p.1, d)) p.2.default_value)) :
    q.1 ∈ L.map Prod.fst := by
  rcases List.mem_filterMap.mp h with ⟨p, hp, hq⟩
  cases hdv : p.2.default_value with
  | none => rw [hdv] at hq; simp at hq
  | some dv =>
    rw [hdv] at hq
    have hq2 : (p.1, dv) = q := by
      injection hq
    rw [← hq2]
    exact List.mem_map_of_mem Prod.fst hp

/-- A clean strict-mode sweep means every instance field is declared. -/
theorem checkExtraFields_sound (d : StructDefinition) (tn : String) :
    ∀ L, checkExtraFields d tn L = none → ∀ q ∈ L, d.has_field q.1 = true := by
  intro L
  induction L with
  | nil =>
    intro _ q hq
    simp at hq
  | cons p rest ih =>
    intro h q hq
    obtain ⟨fn, fv⟩ := p
    simp only [checkExtraFields] at h
    split at h
    · simp at h
    · rename_i hcond
      rcases List.mem_cons.mp hq with h1 | h1
      · subst h1
        simpa using hcond
      · exact ih h q h1

/-- The strict-mode sweep passes when every instance field is declared. -/
theorem checkExtraFields_of (d : StructDefinition) (tn : String) :
    ∀ L, (∀ q ∈ L, d.has_field q.1 = true) → checkExtraFields d tn L = none := by
  intro L
  induction L with
  | nil =>
    intro _
    simp [checkExtraFields]
  | cons p rest ih =>
    intro hall
    obtain ⟨fn, fv⟩ := p
    have hfn : d.has_field fn = true := hall (fn, fv) (by simp)
    simp only [checkExtraFields]
    rw [if_neg (by simp [hfn])]
    exact ih fun q hq => hall q (List.mem_cons_of_mem _ hq)

/-- Peeling one declared field off a clean `checkFields` run: the rest of
the loop is clean, a missing field must have had a default, and a present
field must have been tag-compatible. -/
theorem checkFields_cons_none (v : StructValue) (r : StructRegistry) (strict : Bool)
    (fn : String) (fd : FieldDefinition) (rest : List (String × FieldDefinition))
    (h : checkFields v r strict ((fn, fd) :: rest) = none) :
    checkFields v r strict rest = none ∧
    (fd.default_value = none → v.has_field fn = true) ∧
    (∀ fv, v.get_field fn = some fv →
      are_types_compatible fd.type (get_value_type fv) = true) := by
  rw [checkFields] at h
  by_cases hhf : v.has_field fn = true
  · rw [if_neg (by simp [hhf])] at h
    split at h
    · rename_i hget
      exact ⟨h, fun _ => hhf, fun fv hfv => by rw [hget] at hfv; cases hfv⟩
    · rename_i fv hget
      by_cases hc : are_types_compatible fd.type (get_value_type fv) = true
      · rw [if_neg (by simp [hc])] at h
        have hrest : checkFields v r strict rest = none := by
          split at h
          · split at h
            · split at h
              · simp at h
              · exact h
            · exact h
          · exact h
        refine ⟨hrest, fun _ => hhf, fun fv2 hfv2 => ?_⟩
        rw [hget] at hfv2
        injection hfv2 with hfv2
        rw [← hfv2]
        exact hc
      · rw [if_pos (by simp [hc])] at h
        simp at h
  · rw [if_pos (by simp [hhf])] at h
    split at h
    · simp at h
    · rename_i hdv
      have hdvs : fd.default_value ≠ none := by
        simpa [Option.isNone_iff_eq_none] using hdv
      refine ⟨h, fun hno => absurd hno hdvs, fun fv hfv => ?_⟩
      have := get_field_eq_none_of_not_has v fn (by simpa using hhf)
      rw [this] at hfv
      cases hfv

/-- A clean `checkFields` run over any declared-field list yields the
per-field guarantees of claim C2. -/
theorem checkFields_sound (v : StructValue) (r : StructRegistry) (strict : Bool) :
    ∀ L, checkFields v r strict L = none →
      ∀ p ∈ L, (p.2.default_value = none → v.has_field p.1 = true) ∧
        (∀ fv, v.get_field p.1 = some fv →
          are_types_compatible p.2.type (get_value_type fv) = true) := by
  intro L
  induction L with
  | nil =>
    intro _ p hp
    simp at hp
  | cons q rest ih =>
    intro h p hp
    obtain ⟨fn, fd⟩ := q
    obtain ⟨hrest, hmiss, hcompat⟩ := checkFields_cons_none v r strict fn fd rest h
    rcases List.mem_cons.mp hp with h1 | h1
    · subst h1
      exact ⟨hmiss, hcompat⟩
    · exact ih hrest p h1

/-- The per-field loop passes when every declared field is present with a
compatible value whose nested struct (when the declared tag is `STRUCT`
and the handle is non-null) validates. -/
theorem checkFields_of (v : StructValue) (r : StructRegistry) (strict : Bool) :
    ∀ L, (∀ p ∈ L, ∃ fv, v.get_field p.1 = some fv ∧
        are_types_compatible p.2.type (get_value_type fv) = true ∧
        (p.2.type = ValueType.STRUCT → ∀ sv, fv = Value.structVal (some sv) →
          validate_struct sv r strict = none)) →
      checkFields v r strict L = none := by
  intro L
  induction L with
  | nil =>
    intro _
    rw [checkFields]
  | cons q rest ih =>
    intro hall
    obtain ⟨fn, fd⟩ := q
    obtain ⟨fv, hget, hcompat, hnest⟩ := hall (fn, fd) (by simp)
    have hhf : v.has_field fn = true := has_field_of_get_field v fn fv hget
    have hrest : checkFields v r strict rest = none :=
      ih fun p hp => hall p (List.mem_cons_of_mem _ hp)
    rw [checkFields]
    rw [if_neg (by simp [hhf])]
    split
    · exact hrest
    · rename_i fv2 hget2
      rw [hget] at hget2
      injection hget2 with hget2
      subst hget2
      rw [if_neg (by simp [hcompat])]
      by_cases hst : fd.type = ValueType.STRUCT
      · rw [if_pos hst]
        split
        · rename_i sv
          rw [hnest hst sv rfl]
          exact hrest
        · exact hrest
      · rw [if_neg hst]
        exact hrest

/-- C2: a `StructValue` that validates cleanly has a registered type name;
every schema field with no default is present; every present declared
field carries a tag compatible with its declared tag; and in strict mode
every instance field name is declared in the schema. -/
theorem C2_validate_struct_soundness (v : StructValue) (r : StructRegistry)
    (strict : Bool) (h : validate_struct v r strict = none) :
    r.has_struct v.type_name = true ∧
    ∀ d, r.get_struct v.type_name = some d →
      (∀ p ∈ d.fields, (p.2.default_value = none → v.has_field p.1 = true)) ∧
      (∀ p ∈ d.fields, ∀ fv, v.get_field p.1 = some fv →
        are_types_compatible p.2.type (get_value_type fv) = true) ∧
      (strict = true → ∀ q ∈ v.fields, d.has_field q.1 = true) := by
  rw [validate_struct] at h
  split at h
  · simp at h
  · rename_i d hd
    split at h
    · simp at h
    · rename_i hcheck
      constructor
      · have hd2 := hd
        simp only [StructRegistry.get_struct] at hd2
        simp [StructRegistry.has_struct, hd2]
      · intro d2 hd2
        rw [hd] at hd2
        injection hd2 with hd2
        subst hd2
        refine ⟨?_, ?_, ?_⟩
        · intro p hp
          exact (checkFields_sound v r strict d.fields hcheck p hp).1
        · intro p hp
          exact (checkFields_sound v r strict d.fields hcheck p hp).2
        · intro hstrict q hq
          rw [hstrict, if_pos rfl] at h
          exact checkExtraFields_sound d v.type_name v.fields h q hq

theorem C2_validate_struct_soundness_witness :
    validate_struct (StructValue.mk "S" [("a", Value.vint32 5)])
        (StructRegistry.mk [("S", StructDefinition.mk "S" ""
          [("a", FieldDefinition.mk "a" ValueType.INT32 "" none "")])]) true = none ∧
    (StructRegistry.mk [("S", StructDefinition.mk "S" ""
      [("a", FieldDefinition.mk "a" ValueType.INT32 "" none "")])]).has_struct
        (StructValue.mk "S" [("a", Value.vint32 5)]).type_name = true := by
  have hv : validate_struct (StructValue.mk "S" [("a", Value.vint32 5)])
      (StructRegistry.mk [("S", StructDefinition.mk "S" ""
        [("a", FieldDefinition.mk "a" ValueType.INT32 "" none "")])]) true = none := by
    rw [validate_struct]
    simp [StructRegistry.get_struct, StructValue.type_name, lookupField,
      StructValue.has_field, StructValue.get_field, StructValue.fields,
      are_types_compatible, get_value_type, checkFields, checkExtraFields,
      StructDefinition.has_field]
  exact ⟨hv, (C2_validate_struct_soundness
    (StructValue.mk "S" [("a", Value.vint32 5)])
    (StructRegistry.mk [("S", StructDefinition.mk "S" ""
      [("a", FieldDefinition.mk "a" ValueType.INT32 "" none "")])]) true hv).1⟩

/-- C1 counterexample: with a registered schema `S` holding one field `f`
with no default, `create_default_struct` returns the empty instance and
`validate_struct` rejects it ("required field missing"), so the claim's
"including schemas in which some fields have no default value" fails. -/
theorem C1_default_struct_counterexample :
    create_default_struct "S"
        (StructRegistry.mk [("S", StructDefinition.mk "S" ""
          [("f", FieldDefinition.mk "f" ValueType.INT32 "" none "")])]) =
      some (StructValue.mk "S" []) ∧
    validate_struct (StructValue.mk "S" [])
        (StructRegistry.mk [("S", StructDefinition.mk "S" ""
          [("f", FieldDefinition.mk "f" ValueType.INT32 "" none "")])]) true =
      some "Required field 'f' missing in struct 'S'" := by
  constructor
  · rfl
  · rw [validate_struct]
    simp [StructRegistry.get_struct, StructValue.type_name, lookupField,
      checkFields, StructValue.has_field, StructValue.fields]

/-- C1 amended: for a registered struct type whose schema (with unique
field names) gives **every** field a default value that is
tag-compatible with its declaration — nested `STRUCT` defaults with a
non-null handle referencing instances that themselves validate —
`create_default_struct` returns the instance holding exactly the
defaulted bindings, and that instance passes `validate_struct` against
the same registry.  (Fields without defaults are left absent by
`create_default_struct` and then rejected by `validate_struct` as
missing required fields, so the claim's extension to schemas with
default-less fields is dropped.) -/
theorem C1_default_struct_validates (name : String) (r : StructRegistry)
    (strict : Bool) (d : StructDefinition)
    (hd : r.get_struct name = some d)
    (hnodup : (d.fields.map Prod.fst).Nodup)
    (hdef : ∀ p ∈ d.fields, ∃ dv, p.2.default_value = some dv ∧
      are_types_compatible p.2.type (get_value_type dv) = true ∧
      (p.2.type = ValueType.STRUCT → ∀ sv, dv = Value.structVal (some sv) →
        validate_struct sv r strict = none)) :
    create_default_struct name r =
      some (StructValue.mk name
        (d.fields.filterMap
          (fun p => Option.map (fun dv => (p.1, dv)) p.2.default_value))) ∧
    ∀ sv, create_default_struct name r = some sv →
      validate_struct sv r strict = none := by
  have hcreate : create_default_struct name r =
      some (StructValue.mk name
        (d.fields.filterMap
          (fun p => Option.map (fun dv => (p.1, dv)) p.2.default_value))) := by
    simp only [create_default_struct, hd]
    rw [create_fold_shape]
    rw [applyDefaults_eq d.fields [] (fun k _ => rfl) hnodup]
    simp
  refine ⟨hcreate, ?_⟩
  intro sv hsv
  rw [hcreate] at hsv
  injection hsv with hsv
  subst hsv
  set fl := d.fields.filterMap
    (fun p => Option.map (fun dv => (p.1, dv)) p.2.default_value) with hfl
  have hcheck : checkFields (StructValue.mk name fl) r strict d.fields = none := by
    apply checkFields_of
    intro p hp
    obtain ⟨dv, hdv, hc, hnest⟩ := hdef p hp
    refine ⟨dv, ?_, hc, hnest⟩
    have : (p.1, p.2) ∈ d.fields := hp
    simpa [StructValue.get_field, StructValue.fields, hfl] using
      lookup_filterMap_defaults d.fields hnodup p.1 p.2 dv this hdv
  have hextra : checkExtraFields d (StructValue.mk name fl).type_name fl = none := by
    apply checkExtraFields_of
    intro q hq
    have hmem := mem_filterMap_defaults d.fields q (by simpa [hfl] using hq)
    simp only [StructDefinition.has_field]
    exact lookupField_isSome_of_mem d.fields q.1 hmem
  rw [validate_struct]
  simp only [StructValue.type_name, hd, hcheck, StructValue.fields]
  cases strict with
  | true => simpa [StructValue.type_name] using hextra
  | false => simp

theorem C1_default_struct_validates_witness :
    create_default_struct "P"
        (StructRegistry.mk [("P", StructDefinition.mk "P" ""
          [("a", FieldDefinition.mk "a" ValueType.INT32 "" (some (Value.vint32 1)) "")])]) =
      some (StructValue.mk "P" [("a", Value.vint32 1)]) ∧
    validate_struct (StructValue.mk "P" [("a", Value.vint32 1)])
        (StructRegistry.mk [("P", StructDefinition.mk "P" ""
          [("a", FieldDefinition.mk "a" ValueType.INT32 "" (some (Value.vint32 1)) "")])])
        true = none := by
  have h := C1_default_struct_validates "P"
    (StructRegistry.mk [("P", StructDefinition.mk "P" ""
      [("a", FieldDefinition.mk "a" ValueType.INT32 "" (some (Value.vint32 1)) "")])])
    true
    (StructDefinition.mk "P" ""
      [("a", FieldDefinition.mk "a" ValueType.INT32 "" (some (Value.vint32 1)) "")])
    rfl (by simp)
    (by
      intro p hp
      simp only [StructDefinition.fields, List.mem_singleton] at hp
      subst hp
      exact ⟨Value.vint32 1, rfl, rfl, by intro hst; cases hst⟩)
  exact ⟨h.1, h.2 (StructValue.mk "P" [("a", Value.vint32 1)]) h.1⟩

end VSS
